import Mathlib

/-!
Verification of the ark-infographic-worker core: the extraction pipeline
(scripts/extract-data.ts) and the request orchestration pipeline
(src/index.ts), shallowly embedded in Lean 4.

JavaScript numbers are modelled as rationals (ℚ); JSON-optional fields as
`Option`; JS `Record` objects as association lists in insertion order; the
external collaborators (stat computation, rendering, colorization, SHA-256
digest, sprite store, base64 encoding) as function parameters of the
environment.
-/

namespace ArkWorker

/-- Per-stat multiplier tuple `[TamingAdd, TamingMult, DomLevel, WildLevel]`
(positions 0, 1, 2, 3), as in extract-data.ts `type StatMultiplier`. -/
structure StatMultiplier where
  tamingAdd : ℚ
  tamingMult : ℚ
  domLevel : ℚ
  wildLevel : ℚ
deriving DecidableEq, Repr

/-- Raw 5-tuple stat descriptor
`[BaseValue, IncPerWildLevel, IncPerDomLevel, AddWhenTamed, MultAffinity]`. -/
structure RawStat where
  base : ℚ
  incWild : ℚ
  incDom : ℚ
  addTamed : ℚ
  multAff : ℚ
deriving DecidableEq, Repr

/-- Default per-stat multiplier (identity), `DEFAULT_STAT_MULT = [1,1,1,1]`. -/
def DEFAULT_STAT_MULT : StatMultiplier := ⟨1, 1, 1, 1⟩

/-- extract-data.ts `applyStatMultiplier`:
`[base, incWild*mult[3], incDom*mult[2], addTamed*(addTamed>0 ? mult[0] : 1),
  multAff*(multAff>0 ? mult[1] : 1)]`. -/
def applyStatMultiplier (raw : RawStat) (mult : StatMultiplier) : RawStat :=
  { base := raw.base
    incWild := raw.incWild * mult.wildLevel
    incDom := raw.incDom * mult.domLevel
    addTamed := raw.addTamed * (if raw.addTamed > 0 then mult.tamingAdd else 1)
    multAff := raw.multAff * (if raw.multAff > 0 then mult.tamingMult else 1) }

/-- One entry of the `colors` array of a species: a defined color region with
its display name (the permitted color-name list of a region is never read by the
extraction code, so it is not modelled). -/
structure ColorRegionDef where
  name : String
deriving DecidableEq, Repr

/-- extract-data.ts `interface RawSpecies` (the fields the extraction reads). -/
structure RawSpecies where
  name : String
  statNames : Option (List (String × String))
  colors : Option (List (Option ColorRegionDef))
  fullStatsRaw : Option (List (Option (List ℚ)))
  tamedBaseHealthMultiplier : Option ℚ
  statImprintMult : Option (List ℚ)
deriving DecidableEq, Repr

/-- extract-data.ts `interface ValuesJson`: the upstream document. -/
structure ValuesJson where
  colorDefinitions : List (String × (ℚ × ℚ × ℚ × ℚ))
  dyeDefinitions : List (String × (ℚ × ℚ × ℚ × ℚ))
  species : List RawSpecies
deriving DecidableEq, Repr

/-- extract-data.ts `interface ArkColorEntry`. -/
structure ArkColorEntry where
  id : Nat
  name : String
  linearRgba : ℚ × ℚ × ℚ × ℚ
  isDye : Bool
deriving DecidableEq, Repr

/-- extract-data.ts `interface SpeciesMetaEntry`. -/
structure SpeciesMetaEntry where
  enabledColorRegions : List Bool
  usedStats : List Bool
  statNames : Option (List (String × String))
  colorRegionNames : List (Option String)
  fullStatsRaw : List (Option RawStat)
  tamedBaseHealthMultiplier : ℚ
  statImprintMultipliers : List ℚ
deriving DecidableEq, Repr

/-- extract-data.ts `extractColors`: base colors get IDs `i+1` in input
order, dyes get IDs `201+i` in input order, appended in that order. -/
def extractColors (values : ValuesJson) : List ArkColorEntry :=
  (values.colorDefinitions.enum.map fun p =>
    { id := p.1 + 1, name := p.2.1, linearRgba := p.2.2, isDye := false }) ++
  (values.dyeDefinitions.enum.map fun p =>
    { id := 201 + p.1, name := p.2.1, linearRgba := p.2.2, isDye := true })

/-- One stat slot of the per-species loop in `extractSpeciesMeta`: look up
`sp.fullStatsRaw?.[i]`; if present with length ≥ 5, apply the per-slot
multiplier (`statMultipliers[i] ?? DEFAULT_STAT_MULT`), else record null. -/
def statSlot (sp : RawSpecies) (statMultipliers : List (Option StatMultiplier))
    (i : Nat) : Option RawStat :=
  match (match sp.fullStatsRaw with
         | some l => l.getD i none
         | none => none) with
  | some raw =>
    if raw.length ≥ 5 then
      some (applyStatMultiplier
        ⟨raw.getD 0 0, raw.getD 1 0, raw.getD 2 0, raw.getD 3 0, raw.getD 4 0⟩
        ((statMultipliers.getD i none).getD DEFAULT_STAT_MULT))
    else none
  | none => none

/-- The per-species body of extract-data.ts `extractSpeciesMeta`:
derives the 6 color-region slots, the 12 multiplied stat slots, the
used-stat flags (from the just-built `fullStatsRaw`), and the defaults. -/
def extractSpeciesOne (statMultipliers : List (Option StatMultiplier))
    (sp : RawSpecies) : SpeciesMetaEntry :=
  let enabledColorRegions : List Bool :=
    match sp.colors with
    | some cs => (List.range 6).map fun i => (cs.getD i none).isSome
    | none => List.replicate 6 false
  let colorRegionNames : List (Option String) :=
    match sp.colors with
    | some cs => (List.range 6).map fun i => (cs.getD i none).map (·.name)
    | none => List.replicate 6 none
  let fullStatsRaw : List (Option RawStat) :=
    (List.range 12).map (statSlot sp statMultipliers)
  { enabledColorRegions := enabledColorRegions
    usedStats := (List.range 12).map fun i => (fullStatsRaw.getD i none).isSome
    statNames := sp.statNames
    colorRegionNames := colorRegionNames
    fullStatsRaw := fullStatsRaw
    tamedBaseHealthMultiplier := sp.tamedBaseHealthMultiplier.getD 1
    statImprintMultipliers := (List.range 12).map fun i =>
      match sp.statImprintMult with
      | some l => l.getD i 0
      | none => 0 }

/-- extract-data.ts `extractSpeciesMeta`: builds the species-name-keyed
record, modelled as an association list in insertion order. -/
def extractSpeciesMeta (values : ValuesJson)
    (statMultipliers : List (Option StatMultiplier)) :
    List (String × SpeciesMetaEntry) :=
  values.species.map fun sp => (sp.name, extractSpeciesOne statMultipliers sp)

/-! ## Runtime: cache key (src/index.ts `buildCacheKey`) -/

/-- The lowercase hexadecimal digit character for a value below 16:
codepoints 48–57 are the decimal digits, 97–102 the letters a–f. -/
def hexDigitChar (n : Nat) : Char :=
  Char.ofNat (if n < 10 then 48 + n else 87 + n)

/-- JS `b.toString(16).padStart(2, "0")` for a byte `b < 256`: exactly two
lowercase hex characters. -/
def byteToHex (b : Nat) : String :=
  String.mk [hexDigitChar (b / 16), hexDigitChar (b % 16)]

/-- JS `hashArray.map(byteToHex).join("")`. -/
def bytesToHex (bs : List Nat) : String :=
  (bs.map byteToHex).foldl (· ++ ·) ""

/-- Fixed leading part of every cache key built by `buildCacheKey`. -/
def cacheKeyRoot : String := "https://cache.internal/infographic:"

/-- src/index.ts `buildCacheKey`: hex-encode the SHA-256 digest of the raw
body text and embed it in a synthetic cache URL. The platform digest
(`crypto.subtle.digest("SHA-256", ·)`) is an external collaborator, passed
in as a byte-list-valued function of the body text. -/
def buildCacheKey (digest : String → List Nat) (bodyText : String) : String :=
  cacheKeyRoot ++ bytesToHex (digest bodyText)

/-! ## Runtime: color lookup (src/color-lookup.ts) -/

/-- An sRGB color with alpha, ints 0–255 in the source (ℚ here). -/
structure Color where
  r : ℚ
  g : ℚ
  b : ℚ
  a : ℚ
deriving DecidableEq, Repr

/-- src/color-lookup.ts `LIGHT_GRAY` fallback color. -/
def LIGHT_GRAY : Color := ⟨211, 211, 211, 255⟩

/-- First-match association-list lookup (Map.get / Record access). -/
def lookupTable {α : Type} (table : List (String × α)) (key : String) :
    Option α :=
  (table.find? fun p => p.1 = key).map (·.2)

/-- src/color-lookup.ts `colorLookup.getColor`: ID 0 → LIGHT_GRAY, unknown
ID → LIGHT_GRAY, else the precomputed map entry. The precomputed
`colorMap` (colors.json entries pushed through the external
`arkColorToSrgb`) is passed in as an association list on color IDs. -/
def getColor (colorMap : List (ℚ × Color)) (colorId : ℚ) : Color :=
  if colorId = 0 then LIGHT_GRAY
  else (((colorMap.find? fun p => p.1 = colorId).map (·.2)).getD LIGHT_GRAY)

/-! ## Runtime: request body (src/request-types.ts) -/

/-- An sRGB triple `[c.r, c.g, c.b]` handed to the colorizer. -/
abbrev SrgbColor := ℚ × ℚ × ℚ

/-- Raw image bytes. -/
abbrev Bytes := List Nat

/-- Output format option, `"svg" | "png"`. -/
inductive Format where
  | svg
  | png
deriving DecidableEq, Repr

/-- `body.options`: rendering overrides plus the optional `format` (the
config overrides are spread into the config of the external renderer and never
read by the orchestration logic itself, so only `format` is modelled). -/
structure OptionsBody where
  format : Option Format
deriving DecidableEq, Repr

/-- `body.creature` as parsed JSON: every field may be absent. -/
structure CreatureBody where
  speciesName : Option String
  levelsWild : Option (List ℚ)
  levelsDom : Option (List ℚ)
  sex : Option ℚ
  colors : Option (List ℚ)
  tamingEffectiveness : Option ℚ
  creatureName : Option String
  levelsMutated : Option (List ℚ)
  isBred : Option Bool
  isNeutered : Option Bool
  isMutagenApplied : Option Bool
  imprintingBonus : Option ℚ
  mutations : Option ℚ
  generation : Option ℚ
deriving DecidableEq, Repr

/-- `InfographicRequestBody` as parsed JSON. -/
structure RequestBody where
  creature : Option CreatureBody
  game : Option String
  options : Option OptionsBody
deriving DecidableEq, Repr

/-- The `CreatureData` record built by the orchestrator (src/index.ts
lines 113–132); `level` and `levelHatched` are derived fields. -/
structure CreatureData where
  speciesName : String
  creatureName : String
  sex : ℚ
  isNeutered : Bool
  isMutagenApplied : Bool
  isBred : Bool
  levelsWild : List ℚ
  levelsDom : List ℚ
  levelsMutated : Option (List ℚ)
  valuesBreeding : List ℚ
  valuesCurrent : List ℚ
  colors : List ℚ
  tamingEffectiveness : ℚ
  imprintingBonus : ℚ
  mutations : ℚ
  generation : ℚ
  level : ℚ
  levelHatched : ℚ
deriving DecidableEq, Repr

/-! ## Runtime: request orchestrator (src/index.ts `handleInfographic`) -/

/-- Rendered payload: the SVG text or the PNG bytes. -/
inductive RenderOutput where
  | svg (s : String)
  | png (b : Bytes)
deriving DecidableEq, Repr

/-- Observable side effects of one orchestrator run, in program order:
cache probe, species-table lookup, stat computation, sprite fetches,
colorization, render dispatch, cache store. -/
inductive Effect where
  | cacheProbe (key : String)
  | speciesLookup (name : String)
  | statCompute
  | spriteFetch (objectKey : String)
  | colorize
  | render (fmt : Format)
  | cachePut (key : String)
deriving DecidableEq, Repr

/-- Result of one orchestrator run: HTTP status, the JSON `{error}` message
on the 400 paths, the rendered output on success (or the cached payload on
a hit), the `CreatureData` record handed to the renderer (success only),
the effect trace, and the key of the fire-and-forget cache write, if any. -/
structure HandlerResult where
  status : Nat
  errorMsg : Option String
  output : Option RenderOutput
  creature : Option CreatureData
  effects : List Effect
  cacheWrite : Option String
deriving Repr

/-- Per-request environment: the request itself (raw body text and its
parse result), the shared cache state, the process-wide tables, and the
external collaborators as functions. -/
structure HandlerEnv where
  bodyText : String
  parsedBody : Option RequestBody
  digest : String → List Nat
  cache : String → Option RenderOutput
  speciesTable : List (String × SpeciesMetaEntry)
  colorMap : List (ℚ × Color)
  sprites : String → Option Bytes
  computeStatValues : SpeciesMetaEntry → List ℚ → List ℚ → Option (List ℚ) →
    Bool → ℚ → ℚ → List ℚ × List ℚ
  colorize : Bytes → Bytes → List (Option SrgbColor) → Bytes
  base64 : Bytes → String
  renderSvg : CreatureData → SpeciesMetaEntry → String → Option String → String
  renderPng : CreatureData → SpeciesMetaEntry → String → Option String → Bytes

/-- The 400 message of the missing-required-fields guard (line 66). -/
def missingFieldsMsg : String :=
  "Missing required fields: creature.speciesName, creature.levelsWild, creature.levelsDom"

/-- The 400 message of the array-shape guard (lines 73–74). -/
def lengthMsg : String :=
  "levelsWild and levelsDom must be arrays of exactly 12 numbers"

/-- The truthiness check of line 66,
`!body.creature?.speciesName || !body.creature.levelsWild || !body.creature.levelsDom`:
returns the destructured required fields when all are present (a string is
JS-truthy iff non-empty; an array is truthy whenever present). -/
def requiredFields (body : RequestBody) :
    Option (String × List ℚ × List ℚ × CreatureBody) :=
  match body.creature with
  | none => none
  | some c =>
    match c.speciesName, c.levelsWild, c.levelsDom with
    | some name, some lw, some ld =>
      if name = "" then none else some (name, lw, ld, c)
    | _, _, _ => none

/-- The region-color resolution loop (src/index.ts lines 163–172): for each
of the 6 regions, a color is looked up only when the species enables the
region and the color ID the request supplies for it is non-zero. -/
def resolveRegionColors (species : SpeciesMetaEntry) (colors : List ℚ)
    (colorMap : List (ℚ × Color)) : List (Option SrgbColor) :=
  (List.range 6).map fun i =>
    let colorId := colors.getD i 0
    if species.enabledColorRegions.getD i false ∧ colorId ≠ 0 then
      let c := getColor colorMap colorId
      some (c.r, c.g, c.b)
    else none

/-- A 400 response taken before any collaborator other than the cache probe
ran. -/
def errResult (key msg : String) : HandlerResult :=
  { status := 400, errorMsg := some msg, output := none, creature := none
    effects := [.cacheProbe key], cacheWrite := none }

/-- The success path of `handleInfographic` (src/index.ts lines 91–229),
after parsing, validation and species resolution have succeeded. -/
def successPath (env : HandlerEnv) (key : String) (body : RequestBody)
    (name : String) (lw ld : List ℚ) (c : CreatureBody)
    (species : SpeciesMetaEntry) : HandlerResult :=
  let isBred := c.isBred.getD false
  let tamingEffectiveness := c.tamingEffectiveness.getD 0
  let imprintingBonus := c.imprintingBonus.getD 0
  let isTamed := isBred || decide (tamingEffectiveness > 0)
  let sv := env.computeStatValues species lw ld c.levelsMutated isTamed
    (if isBred then 1 else tamingEffectiveness) imprintingBonus
  let torpidityWild := lw.getD 2 0
  let domSum := ld.foldl (· + ·) 0
  let creature : CreatureData :=
    { speciesName := name
      creatureName := c.creatureName.getD ""
      sex := c.sex.getD 0
      isNeutered := c.isNeutered.getD false
      isMutagenApplied := c.isMutagenApplied.getD false
      isBred := isBred
      levelsWild := lw
      levelsDom := ld
      levelsMutated := c.levelsMutated
      valuesBreeding := sv.1
      valuesCurrent := sv.2
      colors := c.colors.getD [0, 0, 0, 0, 0, 0]
      tamingEffectiveness := tamingEffectiveness
      imprintingBonus := imprintingBonus
      mutations := c.mutations.getD 0
      generation := c.generation.getD 0
      level := torpidityWild + 1 + domSum
      levelHatched := torpidityWild + 1 }
  let game := body.game.getD "ASA"
  let suffix := if game = "ASA" then "_ASA" else ""
  let baseKey := name ++ suffix ++ ".png"
  let maskKey := name ++ suffix ++ "_m.png"
  let baseObj := env.sprites baseKey
  let maskObj := env.sprites maskKey
  let imageAndColorized : Option Bytes × Bool :=
    match baseObj with
    | none => (none, false)
    | some baseBytes =>
      match maskObj with
      | none => (some baseBytes, false)
      | some maskBytes =>
        (some (env.colorize baseBytes maskBytes
          (resolveRegionColors species creature.colors env.colorMap)), true)
  let creatureImageDataUri : Option String :=
    imageAndColorized.1.map fun bytes => "data:image/png;base64," ++ env.base64 bytes
  let fmt :=
    match body.options with
    | some o => o.format.getD .svg
    | none => .svg
  let output : RenderOutput :=
    match fmt with
    | .png => .png (env.renderPng creature species game creatureImageDataUri)
    | .svg => .svg (env.renderSvg creature species game creatureImageDataUri)
  { status := 200, errorMsg := none, output := some output
    creature := some creature
    effects := [.cacheProbe key, .speciesLookup name, .statCompute,
                .spriteFetch baseKey, .spriteFetch maskKey] ++
               (if imageAndColorized.2 then [.colorize] else []) ++
               [.render fmt, .cachePut key]
    cacheWrite := some key }

/-- src/index.ts `handleInfographic`: cache probe → JSON parse → required
fields → array shape → species resolution → success path. -/
def handleInfographic (env : HandlerEnv) : HandlerResult :=
  let key := buildCacheKey env.digest env.bodyText
  match env.cache key with
  | some hit =>
    { status := 200, errorMsg := none, output := some hit, creature := none
      effects := [.cacheProbe key], cacheWrite := none }
  | none =>
    match env.parsedBody with
    | none => errResult key "Invalid JSON body"
    | some body =>
      match requiredFields body with
      | none => errResult key missingFieldsMsg
      | some (name, lw, ld, c) =>
        if lw.length ≠ 12 ∨ ld.length ≠ 12 then errResult key lengthMsg
        else
          match lookupTable env.speciesTable name with
          | none =>
            { status := 400, errorMsg := some ("Unknown species: " ++ name)
              output := none, creature := none
              effects := [.cacheProbe key, .speciesLookup name]
              cacheWrite := none }
          | some species => successPath env key body name lw ld c species

/-- The shared-cache state after the run: `ctx.waitUntil(cache.put key
response)` updates the key the run wrote to, if any; every other key (and
every run that wrote nothing) leaves the cache as it was. -/
def cacheAfter (env : HandlerEnv) : String → Option RenderOutput :=
  match (handleInfographic env).cacheWrite, (handleInfographic env).output with
  | some k, some out => fun q => if q = k then some out else env.cache q
  | _, _ => env.cache

/-! ## Runtime: router (src/index.ts `fetch`, lines 28–41) -/

/-- Outcome of routing one request. -/
inductive RouteOutcome where
  | delegatedInfographic
  | delegatedSpecies
  | plain (status : Nat) (body : String)
deriving DecidableEq, Repr

/-- src/index.ts `fetch` dispatch: POST /api/infographic and GET
/api/species delegate to their handlers; /api/health answers 200 "OK";
everything else answers 404 "Not Found". -/
def routeRequest (path method : String) : RouteOutcome :=
  if path = "/api/infographic" ∧ method = "POST" then .delegatedInfographic
  else if path = "/api/species" ∧ method = "GET" then .delegatedSpecies
  else if path = "/api/health" then .plain 200 "OK"
  else .plain 404 "Not Found"

/-! ## Helper lemmas -/

/-- Indexing with default into a `map` over `List.range`. -/
theorem getD_map_range {α : Type} (d : α) (g : Nat → α) (n i : Nat)
    (h : i < n) : ((List.range n).map g).getD i d = g i := by
  rw [List.getD_eq_getElem?_getD, List.getElem?_map, List.getElem?_range h]
  rfl

/-- Length of a left fold of string concatenations. -/
theorem foldl_append_length (l : List String) (s : String) :
    (l.foldl (· ++ ·) s).length = s.length + (l.map String.length).sum := by
  induction l generalizing s with
  | nil => simp
  | cons a t ih =>
    simp only [List.foldl_cons, List.map_cons, List.sum_cons, ih,
      String.length_append]
    omega

/-- Each hex-encoded byte is exactly two characters. -/
theorem byteToHex_length (b : Nat) : (byteToHex b).length = 2 := rfl

/-- The hex encoding of a byte list has twice its length. -/
theorem bytesToHex_length (bs : List Nat) :
    (bytesToHex bs).length = 2 * bs.length := by
  unfold bytesToHex
  rw [foldl_append_length]
  have hmap : (bs.map byteToHex).map String.length = bs.map fun _ => 2 := by
    rw [List.map_map]; rfl
  have hsum : ∀ l : List Nat, (l.map fun _ => (2 : Nat)).sum = 2 * l.length := by
    intro l
    induction l with
    | nil => rfl
    | cons a t ih =>
      simp only [List.map_cons, List.sum_cons, List.length_cons, ih]
      omega
  rw [hmap, hsum, show ("" : String).length = 0 from rfl]
  omega

/-- A left fold of additions is the sum shifted by the seed. -/
theorem foldl_add_eq_sum (l : List ℚ) (s : ℚ) :
    l.foldl (· + ·) s = s + l.sum := by
  induction l generalizing s with
  | nil => simp
  | cons a t ih => simp only [List.foldl_cons, List.sum_cons, ih]; ring

/-- Mapping an index function over an enumeration is a map over the range
of positions. -/
theorem enum_map_idx {α β : Type} (l : List α) (g : Nat → β) :
    l.enum.map (fun p => g p.1) = (List.range l.length).map g := by
  rw [← List.enum_map_fst l, List.map_map]
  rfl

/-- The used-stat flags of one extracted species read back the presence of
the corresponding multiplied stat slot, for every slot below 12. -/
theorem usedStats_spec (statMultipliers : List (Option StatMultiplier))
    (sp : RawSpecies) (i : Nat) (hi : i < 12) :
    (extractSpeciesOne statMultipliers sp).usedStats.getD i false =
      ((extractSpeciesOne statMultipliers sp).fullStatsRaw.getD i none).isSome := by
  unfold extractSpeciesOne
  dsimp only
  exact getD_map_range _ _ 12 i hi

/-! ## Claims -/

/-- C1: `applyStatMultiplier` leaves BaseValue unchanged, scales
IncPerWildLevel by the WildLevel factor (position 3) and IncPerDomLevel by
the DomLevel factor (position 2), and scales AddWhenTamed / MultAffinity by
the TamingAdd / TamingMult factors (positions 0 / 1) exactly when the
original value is strictly positive, leaving them identical to the input
otherwise. -/
theorem applyStatMultiplier_componentwise (raw : RawStat) (m : StatMultiplier) :
    (applyStatMultiplier raw m).base = raw.base ∧
    (applyStatMultiplier raw m).incWild = raw.incWild * m.wildLevel ∧
    (applyStatMultiplier raw m).incDom = raw.incDom * m.domLevel ∧
    (0 < raw.addTamed →
      (applyStatMultiplier raw m).addTamed = raw.addTamed * m.tamingAdd) ∧
    (¬ 0 < raw.addTamed →
      (applyStatMultiplier raw m).addTamed = raw.addTamed) ∧
    (0 < raw.multAff →
      (applyStatMultiplier raw m).multAff = raw.multAff * m.tamingMult) ∧
    (¬ 0 < raw.multAff →
      (applyStatMultiplier raw m).multAff = raw.multAff) := by
  unfold applyStatMultiplier
  refine ⟨rfl, rfl, rfl, ?_, ?_, ?_, ?_⟩ <;> intro h <;> simp [h]

/-- C1 witness: a concrete stat tuple with a positive AddWhenTamed and a
zero MultAffinity. -/
theorem applyStatMultiplier_componentwise_witness :
    (applyStatMultiplier ⟨1, 2, 3, 4, 0⟩ ⟨5, 6, 7, 8⟩).addTamed = 4 * 5 ∧
    (applyStatMultiplier ⟨1, 2, 3, 4, 0⟩ ⟨5, 6, 7, 8⟩).multAff = 0 := by
  have h := applyStatMultiplier_componentwise ⟨1, 2, 3, 4, 0⟩ ⟨5, 6, 7, 8⟩
  exact ⟨h.2.2.2.1 (by norm_num), h.2.2.2.2.2.2 (by norm_num)⟩

/-- C10: the identity multiplier `[1,1,1,1]` (the documented fallback when
a preset or the multiplier document is missing) is a right identity for
`applyStatMultiplier`. -/
theorem applyStatMultiplier_default_id (raw : RawStat) :
    applyStatMultiplier raw DEFAULT_STAT_MULT = raw := by
  cases raw
  simp [applyStatMultiplier, DEFAULT_STAT_MULT]

/-- C10 witness: the identity multiplier leaves a concrete mixed-sign stat
tuple untouched. -/
theorem applyStatMultiplier_default_id_witness :
    applyStatMultiplier ⟨3, 4, 5, 6, -7⟩ DEFAULT_STAT_MULT = ⟨3, 4, 5, 6, -7⟩ :=
  applyStatMultiplier_default_id ⟨3, 4, 5, 6, -7⟩

/-- C9 counterexample: the router matches `/api/health` without inspecting
the method, so a POST to `/api/health` answers 200 "OK", not 404 as the
claim asserts. -/
theorem routeRequest_health_post_is_200 :
    routeRequest "/api/health" "POST" = .plain 200 "OK" ∧
    routeRequest "/api/health" "POST" ≠ .plain 404 "Not Found" := by
  constructor <;> decide

/-- C9 amended: GET `/api/health` (indeed, any method on `/api/health`)
answers 200 "OK", and every path/method pair matching none of
POST `/api/infographic`, GET `/api/species`, or `/api/health` (any method)
answers 404. -/
theorem routeRequest_spec :
    (∀ method, routeRequest "/api/health" method = .plain 200 "OK") ∧
    (∀ path method, ¬(path = "/api/infographic" ∧ method = "POST") →
      ¬(path = "/api/species" ∧ method = "GET") → path ≠ "/api/health" →
      routeRequest path method = .plain 404 "Not Found") := by
  constructor
  · intro method
    unfold routeRequest
    rw [if_neg (fun h => absurd h.1 (by decide)),
      if_neg (fun h => absurd h.1 (by decide)), if_pos rfl]
  · intro path method h1 h2 h3
    unfold routeRequest
    rw [if_neg h1, if_neg h2, if_neg h3]

/-- C9 amended witness: GET `/api/health` answers 200 and an unknown path
answers 404. -/
theorem routeRequest_spec_witness :
    routeRequest "/api/health" "GET" = .plain 200 "OK" ∧
    routeRequest "/nope" "GET" = .plain 404 "Not Found" :=
  ⟨routeRequest_spec.1 "GET",
   routeRequest_spec.2 "/nope" "GET" (by decide) (by decide) (by decide)⟩

/-- An upstream document with 201 base colors and one dye: base color
number 201 and the first dye both receive ID 201. -/
def overflowDoc : ValuesJson :=
  { colorDefinitions := List.replicate 201 ("c", (0, 0, 0, 0))
    dyeDefinitions := [("d", (0, 0, 0, 0))]
    species := [] }

set_option maxRecDepth 8000 in
/-- C3 counterexample: with 201 base-color definitions, the positional ID
assignment collides with the dye range, so the IDs of the output table are not
pairwise distinct — the claimed injectivity fails for that document. -/
theorem extractColors_not_injective_at_201 :
    ¬ ((extractColors overflowDoc).map (·.id)).Nodup := by
  intro h
  have h200 : ((extractColors overflowDoc).map (·.id)).getD 200 0 = 201 := by
    decide
  have h201 : ((extractColors overflowDoc).map (·.id)).getD 201 0 = 201 := by
    decide
  have hlen : ((extractColors overflowDoc).map (·.id)).length = 202 := by
    decide
  have hne := @List.Nodup.getElem_inj_iff _ _ h 200 (by omega) 201 (by omega)
  rw [List.getD_eq_getElem?_getD, List.getElem?_eq_getElem (by omega)] at h200 h201
  simp only [Option.getD_some] at h200 h201
  have : (200 : Nat) = 201 := hne.mp (h200.trans h201.symm)
  omega

/-- C3 amended: base colors occupy the dense ID range `1..N` in input
order and dyes the range `201..200+M` in input order; the assignment is
deterministic; and it is injective provided the document has at most 200
base-color definitions (with 201 or more, the base range overruns the dye
range). -/
theorem extractColors_ids_spec (v : ValuesJson) :
    (extractColors v).map (·.id) =
      (List.range v.colorDefinitions.length).map (· + 1) ++
      (List.range v.dyeDefinitions.length).map (201 + ·) ∧
    (v.colorDefinitions.length ≤ 200 →
      ((extractColors v).map (·.id)).Nodup) ∧
    (∀ w, v = w → extractColors v = extractColors w) := by
  have hids : (extractColors v).map (·.id) =
      (List.range v.colorDefinitions.length).map (· + 1) ++
      (List.range v.dyeDefinitions.length).map (201 + ·) := by
    unfold extractColors
    rw [List.map_append, List.map_map, List.map_map]
    congr 1
    · exact enum_map_idx _ _
    · exact enum_map_idx _ _
  refine ⟨hids, ?_, fun w hw => by rw [hw]⟩
  intro hN
  rw [hids]
  rw [List.nodup_append]
  refine ⟨?_, ?_, ?_⟩
  · exact (List.nodup_range _).map fun a b h => by omega
  · exact (List.nodup_range _).map fun a b h => by omega
  · intro a ha hb
    simp only [List.mem_map, List.mem_range] at ha hb
    obtain ⟨i, hiN, hia⟩ := ha
    obtain ⟨j, hjM, hja⟩ := hb
    omega

/-- C3 amended witness: a one-base-color, one-dye document gets IDs
`[1, 201]`, which are distinct. -/
theorem extractColors_ids_spec_witness :
    (extractColors ⟨[("red", (1, 0, 0, 1))], [("dye", (0, 0, 0, 1))], []⟩).map
        (·.id) =
      (List.range 1).map (· + 1) ++ (List.range 1).map (201 + ·) ∧
    ((extractColors ⟨[("red", (1, 0, 0, 1))], [("dye", (0, 0, 0, 1))], []⟩).map
        (·.id)).Nodup :=
  ⟨(extractColors_ids_spec _).1,
   (extractColors_ids_spec _).2.1 (by decide)⟩

/-- C2: in every species entry produced by `extractSpeciesMeta`, for every
stat slot below 12 the used-stat flag is true exactly when the multiplied
stat tuple for that slot is present — the flags are derived from the stat
data, never set independently. -/
theorem extractSpeciesMeta_usedStats_invariant (v : ValuesJson)
    (statMultipliers : List (Option StatMultiplier)) (name : String)
    (e : SpeciesMetaEntry) (hmem : (name, e) ∈ extractSpeciesMeta v statMultipliers)
    (i : Nat) (hi : i < 12) :
    e.usedStats.getD i false = true ↔ e.fullStatsRaw.getD i none ≠ none := by
  obtain ⟨sp, hsp, heq⟩ := List.mem_map.mp hmem
  have he : extractSpeciesOne statMultipliers sp = e := congrArg Prod.snd heq
  subst he
  rw [usedStats_spec statMultipliers sp i hi]
  exact Option.isSome_iff_ne_none

/-- C2 witness: a one-species document whose species has data only in stat
slot 0. -/
theorem extractSpeciesMeta_usedStats_invariant_witness :
    ("Dodo", extractSpeciesOne []
        ⟨"Dodo", none, none, some [some [100, 2, 3, 4, 5]], none, none⟩) ∈
      extractSpeciesMeta
        ⟨[], [], [⟨"Dodo", none, none, some [some [100, 2, 3, 4, 5]], none, none⟩]⟩ [] ∧
    ((extractSpeciesOne []
        ⟨"Dodo", none, none, some [some [100, 2, 3, 4, 5]], none, none⟩).usedStats.getD
          0 false = true ↔
      (extractSpeciesOne []
        ⟨"Dodo", none, none, some [some [100, 2, 3, 4, 5]], none, none⟩).fullStatsRaw.getD
          0 none ≠ none) := by
  refine ⟨?_, ?_⟩
  · simp [extractSpeciesMeta]
  · exact extractSpeciesMeta_usedStats_invariant
      ⟨[], [], [⟨"Dodo", none, none, some [some [100, 2, 3, 4, 5]], none, none⟩]⟩
      [] "Dodo" _ (by simp [extractSpeciesMeta]) 0 (by decide)

/-- C7: `buildCacheKey` is a deterministic function of the raw body text —
byte-identical bodies give identical keys — and, for a digest that returns
32 bytes (SHA-256), the key embeds a 64-character hex digest, making every
key the same fixed length (35 leading characters + 64 hex characters). -/
theorem buildCacheKey_deterministic_fixed_length (digest : String → List Nat)
    (hd : ∀ s, (digest s).length = 32) (b1 b2 : String) (h : b1 = b2) :
    buildCacheKey digest b1 = buildCacheKey digest b2 ∧
    (bytesToHex (digest b1)).length = 64 ∧
    (buildCacheKey digest b1).length = 99 := by
  subst h
  refine ⟨rfl, ?_, ?_⟩
  · rw [bytesToHex_length, hd]
  · unfold buildCacheKey
    rw [String.length_append, bytesToHex_length, hd]
    decide

/-- C7 witness: a concrete 32-byte digest function on a concrete body. -/
theorem buildCacheKey_deterministic_fixed_length_witness :
    buildCacheKey (fun _ => List.replicate 32 0) "a" =
      buildCacheKey (fun _ => List.replicate 32 0) "a" ∧
    (bytesToHex ((fun _ : String => List.replicate 32 0) "a")).length = 64 ∧
    (buildCacheKey (fun _ => List.replicate 32 0) "a").length = 99 :=
  buildCacheKey_deterministic_fixed_length (fun _ => List.replicate 32 0)
    (fun _ => by simp) "a" "a" rfl

/-- C8: a color region resolves to a looked-up color exactly when the
species enables the region and the color ID the request supplies is non-zero;
a disabled region or a zero ID resolves to "no color", even when a
non-zero ID is supplied for a disabled region. -/
theorem resolveRegionColors_spec (species : SpeciesMetaEntry)
    (colors : List ℚ) (colorMap : List (ℚ × Color)) (i : Nat) (hi : i < 6) :
    ((resolveRegionColors species colors colorMap).getD i none ≠ none ↔
      (species.enabledColorRegions.getD i false = true ∧
        colors.getD i 0 ≠ 0)) ∧
    (species.enabledColorRegions.getD i false = true → colors.getD i 0 ≠ 0 →
      (resolveRegionColors species colors colorMap).getD i none =
        some ((getColor colorMap (colors.getD i 0)).r,
              (getColor colorMap (colors.getD i 0)).g,
              (getColor colorMap (colors.getD i 0)).b)) := by
  unfold resolveRegionColors
  rw [getD_map_range _ _ 6 i hi]
  dsimp only
  by_cases h : species.enabledColorRegions.getD i false = true ∧
      colors.getD i 0 ≠ 0
  · rw [if_pos h]
    exact ⟨iff_of_true (by simp) h, fun _ _ => rfl⟩
  · rw [if_neg h]
    exact ⟨iff_of_false (by simp) h, fun h1 h2 => absurd ⟨h1, h2⟩ h⟩

/-- C8 witness: region 0 enabled with a non-zero supplied color ID resolves
to the looked-up color. -/
theorem resolveRegionColors_spec_witness :
    (resolveRegionColors
        ⟨[true, false, true, false, false, false], [], none, [], [], 1, []⟩
        [14, 0, 0, 5, 0, 0] [(14, ⟨10, 20, 30, 255⟩)]).getD 0 none ≠ none :=
  (resolveRegionColors_spec
      ⟨[true, false, true, false, false, false], [], none, [], [], 1, []⟩
      [14, 0, 0, 5, 0, 0] [(14, ⟨10, 20, 30, 255⟩)] 0 (by decide)).1.mpr
    ⟨by decide, by decide⟩

/-- C4: on every valid request (cache miss, parseable body, required
fields present, both level arrays of length 12, known species), the
orchestrator hands the renderer a creature whose `level` is
`levelsWild[2] + 1 + sum(levelsDom)` and whose `levelHatched` is
`levelsWild[2] + 1`; the request body carries no such fields, so both are
always computed. -/
theorem handleInfographic_level_derivation (env : HandlerEnv)
    (body : RequestBody) (name : String) (lw ld : List ℚ) (c : CreatureBody)
    (species : SpeciesMetaEntry)
    (hcache : env.cache (buildCacheKey env.digest env.bodyText) = none)
    (hparse : env.parsedBody = some body)
    (hreq : requiredFields body = some (name, lw, ld, c))
    (hlw : lw.length = 12) (hld : ld.length = 12)
    (hsp : lookupTable env.speciesTable name = some species) :
    ∃ cr : CreatureData, (handleInfographic env).creature = some cr ∧
      cr.level = lw.getD 2 0 + 1 + ld.sum ∧
      cr.levelHatched = lw.getD 2 0 + 1 := by
  have hrun : handleInfographic env =
      successPath env (buildCacheKey env.digest env.bodyText) body name lw ld
        c species := by
    unfold handleInfographic
    simp only [hcache, hparse, hreq, hsp]
    rw [if_neg (by simp [hlw, hld])]
  rw [hrun]
  unfold successPath
  refine ⟨_, rfl, ?_, rfl⟩
  dsimp only
  rw [foldl_add_eq_sum]
  ring

/-- C4 witness: end-to-end scenario 1 — wild levels `[0,0,10,…]`
and all-zero dom levels give `level = 11` and `levelHatched = 11`. -/
theorem handleInfographic_level_derivation_witness :
    (∃ cr : CreatureData,
      (handleInfographic
        { bodyText := ""
          parsedBody := some
            { creature := some
                { speciesName := some "Dodo"
                  levelsWild := some [0, 0, 10, 0, 0, 0, 0, 0, 0, 0, 0, 0]
                  levelsDom := some (List.replicate 12 0)
                  sex := none, colors := none, tamingEffectiveness := none
                  creatureName := none, levelsMutated := none, isBred := none
                  isNeutered := none, isMutagenApplied := none
                  imprintingBonus := none, mutations := none, generation := none }
              game := none
              options := none }
          digest := fun _ => []
          cache := fun _ => none
          speciesTable := [("Dodo", ⟨[], [], none, [], [], 1, []⟩)]
          colorMap := []
          sprites := fun _ => none
          computeStatValues := fun _ _ _ _ _ _ _ => ([], [])
          colorize := fun _ _ _ => []
          base64 := fun _ => ""
          renderSvg := fun _ _ _ _ => ""
          renderPng := fun _ _ _ _ => [] }).creature = some cr ∧
      cr.level = ([0, 0, 10, 0, 0, 0, 0, 0, 0, 0, 0, 0] : List ℚ).getD 2 0 + 1 +
        (List.replicate 12 (0 : ℚ)).sum ∧
      cr.levelHatched =
        ([0, 0, 10, 0, 0, 0, 0, 0, 0, 0, 0, 0] : List ℚ).getD 2 0 + 1) ∧
    ([0, 0, 10, 0, 0, 0, 0, 0, 0, 0, 0, 0] : List ℚ).getD 2 0 + 1 +
      (List.replicate 12 (0 : ℚ)).sum = 11 ∧
    ([0, 0, 10, 0, 0, 0, 0, 0, 0, 0, 0, 0] : List ℚ).getD 2 0 + 1 = 11 := by
  refine ⟨?_,
    by norm_num [List.getD_cons_succ, List.getD_cons_zero, List.sum_replicate],
    by norm_num [List.getD_cons_succ, List.getD_cons_zero]⟩
  exact handleInfographic_level_derivation _ _ "Dodo"
    [0, 0, 10, 0, 0, 0, 0, 0, 0, 0, 0, 0] (List.replicate 12 0)
    { speciesName := some "Dodo"
      levelsWild := some [0, 0, 10, 0, 0, 0, 0, 0, 0, 0, 0, 0]
      levelsDom := some (List.replicate 12 0)
      sex := none, colors := none, tamingEffectiveness := none
      creatureName := none, levelsMutated := none, isBred := none
      isNeutered := none, isMutagenApplied := none
      imprintingBonus := none, mutations := none, generation := none }
    ⟨[], [], none, [], [], 1, []⟩ rfl rfl rfl rfl rfl rfl

/-- C5: on a cache miss, a parsed body that is missing the species name,
the wild-level array or the dom-level array, or whose level arrays do not
both have exactly 12 entries, draws a 400 response carrying the JSON error
message that names the offending fields; the run performs no species
lookup, stat computation, sprite fetch, render or cache write (its whole
effect trace is the cache probe), and writes nothing to the cache. -/
theorem handleInfographic_validation_short_circuit (env : HandlerEnv)
    (body : RequestBody)
    (hcache : env.cache (buildCacheKey env.digest env.bodyText) = none)
    (hparse : env.parsedBody = some body)
    (hbad : requiredFields body = none ∨
      ∃ name lw ld c, requiredFields body = some (name, lw, ld, c) ∧
        (lw.length ≠ 12 ∨ ld.length ≠ 12)) :
    (handleInfographic env).status = 400 ∧
    (handleInfographic env).cacheWrite = none ∧
    (handleInfographic env).effects =
      [.cacheProbe (buildCacheKey env.digest env.bodyText)] ∧
    ((requiredFields body = none ∧
        (handleInfographic env).errorMsg = some missingFieldsMsg) ∨
      (requiredFields body ≠ none ∧
        (handleInfographic env).errorMsg = some lengthMsg)) := by
  rcases hbad with hnone | ⟨name, lw, ld, c, hsome, hlen⟩
  · have hrun : handleInfographic env =
        errResult (buildCacheKey env.digest env.bodyText) missingFieldsMsg := by
      unfold handleInfographic
      simp only [hcache, hparse, hnone]
    rw [hrun]
    exact ⟨rfl, rfl, rfl, Or.inl ⟨hnone, rfl⟩⟩
  · have hrun : handleInfographic env =
        errResult (buildCacheKey env.digest env.bodyText) lengthMsg := by
      unfold handleInfographic
      simp only [hcache, hparse, hsome]
      rw [if_pos hlen]
    rw [hrun]
    exact ⟨rfl, rfl, rfl, Or.inr ⟨by simp [hsome], rfl⟩⟩

/-- C5 witness: end-to-end scenario 3 — a body missing
`levelsDom` entirely draws the 400 naming the required fields, with the
cache probe as the only effect. -/
theorem handleInfographic_validation_short_circuit_witness :
    (handleInfographic
      { bodyText := ""
        parsedBody := some
          { creature := some
              { speciesName := some "Dodo"
                levelsWild := some (List.replicate 12 0)
                levelsDom := none
                sex := none, colors := none, tamingEffectiveness := none
                creatureName := none, levelsMutated := none, isBred := none
                isNeutered := none, isMutagenApplied := none
                imprintingBonus := none, mutations := none, generation := none }
            game := none
            options := none }
        digest := fun _ => []
        cache := fun _ => none
        speciesTable := []
        colorMap := []
        sprites := fun _ => none
        computeStatValues := fun _ _ _ _ _ _ _ => ([], [])
        colorize := fun _ _ _ => []
        base64 := fun _ => ""
        renderSvg := fun _ _ _ _ => ""
        renderPng := fun _ _ _ _ => [] }).status = 400 ∧
    (handleInfographic
      { bodyText := ""
        parsedBody := some
          { creature := some
              { speciesName := some "Dodo"
                levelsWild := some (List.replicate 12 0)
                levelsDom := none
                sex := none, colors := none, tamingEffectiveness := none
                creatureName := none, levelsMutated := none, isBred := none
                isNeutered := none, isMutagenApplied := none
                imprintingBonus := none, mutations := none, generation := none }
            game := none
            options := none }
        digest := fun _ => []
        cache := fun _ => none
        speciesTable := []
        colorMap := []
        sprites := fun _ => none
        computeStatValues := fun _ _ _ _ _ _ _ => ([], [])
        colorize := fun _ _ _ => []
        base64 := fun _ => ""
        renderSvg := fun _ _ _ _ => ""
        renderPng := fun _ _ _ _ => [] }).errorMsg = some missingFieldsMsg := by
  have h := handleInfographic_validation_short_circuit
    { bodyText := ""
      parsedBody := some
        { creature := some
            { speciesName := some "Dodo"
              levelsWild := some (List.replicate 12 0)
              levelsDom := none
              sex := none, colors := none, tamingEffectiveness := none
              creatureName := none, levelsMutated := none, isBred := none
              isNeutered := none, isMutagenApplied := none
              imprintingBonus := none, mutations := none, generation := none }
          game := none
          options := none }
      digest := fun _ => []
      cache := fun _ => none
      speciesTable := []
      colorMap := []
      sprites := fun _ => none
      computeStatValues := fun _ _ _ _ _ _ _ => ([], [])
      colorize := fun _ _ _ => []
      base64 := fun _ => ""
      renderSvg := fun _ _ _ _ => ""
      renderPng := fun _ _ _ _ => [] }
    _ rfl rfl (Or.inl rfl)
  refine ⟨h.1, ?_⟩
  rcases h.2.2.2 with ⟨_, hmsg⟩ | ⟨hne, _⟩
  · exact hmsg
  · exact absurd rfl hne

/-- C6: on a cache miss with a well-shaped body naming a species absent
from the species table, the orchestrator answers 400 with an error message
naming that species, performs only the cache probe and the species lookup,
writes nothing to the cache, and leaves the cache state unchanged. -/
theorem handleInfographic_unknown_species (env : HandlerEnv)
    (body : RequestBody) (name : String) (lw ld : List ℚ) (c : CreatureBody)
    (hcache : env.cache (buildCacheKey env.digest env.bodyText) = none)
    (hparse : env.parsedBody = some body)
    (hreq : requiredFields body = some (name, lw, ld, c))
    (hlw : lw.length = 12) (hld : ld.length = 12)
    (hsp : lookupTable env.speciesTable name = none) :
    (handleInfographic env).status = 400 ∧
    (handleInfographic env).errorMsg = some ("Unknown species: " ++ name) ∧
    (handleInfographic env).effects =
      [.cacheProbe (buildCacheKey env.digest env.bodyText),
       .speciesLookup name] ∧
    (handleInfographic env).cacheWrite = none ∧
    cacheAfter env = env.cache := by
  have hrun : handleInfographic env =
      { status := 400, errorMsg := some ("Unknown species: " ++ name)
        output := none, creature := none
        effects := [.cacheProbe (buildCacheKey env.digest env.bodyText),
                    .speciesLookup name]
        cacheWrite := none } := by
    unfold handleInfographic
    simp only [hcache, hparse, hreq, hsp]
    rw [if_neg (by simp [hlw, hld])]
  refine ⟨by rw [hrun], by rw [hrun], by rw [hrun], by rw [hrun], ?_⟩
  unfold cacheAfter
  rw [hrun]

/-- C6 witness: end-to-end scenario 2 — a well-shaped request
for a species missing from the table. -/
theorem handleInfographic_unknown_species_witness :
    (handleInfographic
      { bodyText := ""
        parsedBody := some
          { creature := some
              { speciesName := some "Nessie"
                levelsWild := some (List.replicate 12 0)
                levelsDom := some (List.replicate 12 0)
                sex := none, colors := none, tamingEffectiveness := none
                creatureName := none, levelsMutated := none, isBred := none
                isNeutered := none, isMutagenApplied := none
                imprintingBonus := none, mutations := none, generation := none }
            game := none
            options := none }
        digest := fun _ => []
        cache := fun _ => none
        speciesTable := []
        colorMap := []
        sprites := fun _ => none
        computeStatValues := fun _ _ _ _ _ _ _ => ([], [])
        colorize := fun _ _ _ => []
        base64 := fun _ => ""
        renderSvg := fun _ _ _ _ => ""
        renderPng := fun _ _ _ _ => [] }).errorMsg =
      some ("Unknown species: " ++ "Nessie") ∧
    (handleInfographic
      { bodyText := ""
        parsedBody := some
          { creature := some
              { speciesName := some "Nessie"
                levelsWild := some (List.replicate 12 0)
                levelsDom := some (List.replicate 12 0)
                sex := none, colors := none, tamingEffectiveness := none
                creatureName := none, levelsMutated := none, isBred := none
                isNeutered := none, isMutagenApplied := none
                imprintingBonus := none, mutations := none, generation := none }
            game := none
            options := none }
        digest := fun _ => []
        cache := fun _ => none
        speciesTable := []
        colorMap := []
        sprites := fun _ => none
        computeStatValues := fun _ _ _ _ _ _ _ => ([], [])
        colorize := fun _ _ _ => []
        base64 := fun _ => ""
        renderSvg := fun _ _ _ _ => ""
        renderPng := fun _ _ _ _ => [] }).cacheWrite = none := by
  have h := handleInfographic_unknown_species
    { bodyText := ""
      parsedBody := some
        { creature := some
            { speciesName := some "Nessie"
              levelsWild := some (List.replicate 12 0)
              levelsDom := some (List.replicate 12 0)
              sex := none, colors := none, tamingEffectiveness := none
              creatureName := none, levelsMutated := none, isBred := none
              isNeutered := none, isMutagenApplied := none
              imprintingBonus := none, mutations := none, generation := none }
          game := none
          options := none }
      digest := fun _ => []
      cache := fun _ => none
      speciesTable := []
      colorMap := []
      sprites := fun _ => none
      computeStatValues := fun _ _ _ _ _ _ _ => ([], [])
      colorize := fun _ _ _ => []
      base64 := fun _ => ""
      renderSvg := fun _ _ _ _ => ""
      renderPng := fun _ _ _ _ => [] }
    _ "Nessie" (List.replicate 12 0) (List.replicate 12 0) _
    rfl rfl rfl rfl rfl rfl
  exact ⟨h.2.1, h.2.2.2.1⟩

end ArkWorker
